import Mathlib

/-!
Verification development for the Urban Mobility back-office core
(`src/urban_mobility/`): the encryption service, credential store,
authentication engine, audit log, restore-code broker and backup/restore
orchestrator are shallowly embedded below, and the specification's claims
about them are settled as theorems.

Python strings are modelled as `List Char`; SQLite tables as Lean lists of
rows; wall-clock timestamps as `Int` (seconds); each call-site source of
randomness (Fernet IVs, bcrypt salts) as a monotone counter threaded through
the state, so that two distinct encryptions of the same plaintext yield
distinct ciphertexts, exactly as Fernet's random IV does with overwhelming
probability.
-/

namespace UrbanMobility

/-- Coerce a Lean string literal to the `List Char` representation used
throughout the embedding. -/
def str (s : String) : List Char := s.data

/-! ## Encryption service (`src/urban_mobility/encryption.py`)

`encrypt_data` wraps `fernet.encrypt`.  A Fernet token is a self-contained
tagged value embedding a random IV; we model it as a tag, a unary-encoded
nonce, a separator and the plaintext.  What the model keeps faithful:
(1) encrypting the same plaintext twice with fresh nonces yields different
ciphertexts (random IV); (2) decryption recovers the plaintext without any
state beyond the key; (3) a string that is not a well-formed token fails
authentication and `decrypt_data` falls back to returning it unchanged
(lines 147-153 of encryption.py); (4) the empty string short-circuits in
both directions (lines 121-122 and 144-145). -/

/-- The leading bytes every Fernet token shares (version byte `0x80`
base64-encodes to `gAAA...`). -/
def fernetTag : List Char := ['g', 'A', 'A', 'A']

/-- `encrypt_data` (encryption.py lines 108-129): empty input short-circuits
to the empty string without passing through the cipher; otherwise the token
embeds the fresh IV (`nonce`) and the payload. -/
def encrypt_data (nonce : Nat) (data : List Char) : List Char :=
  if data = [] then []
  else fernetTag ++ (List.replicate nonce '*' ++ ':' :: data)

/-- Token parsing: `some payload` when the input is a well-formed token
under the current key, `none` when Fernet's authentication would fail. -/
def fernetPayload (s : List Char) : Option (List Char) :=
  if fernetTag.isPrefixOf s then
    match (s.drop fernetTag.length).dropWhile (fun c => decide (c = '*')) with
    | ':' :: rest => some rest
    | _ => none
  else none

/-- `decrypt_data` (encryption.py lines 131-153): empty input short-circuits;
a well-formed token yields its payload; anything else (legacy plaintext) is
returned unchanged instead of raising. -/
def decrypt_data (s : List Char) : List Char :=
  if s = [] then []
  else
    match fernetPayload s with
    | some plain => plain
    | none => s

theorem fernetTag_isPrefixOf (l : List Char) :
    fernetTag.isPrefixOf (fernetTag ++ l) = true := by
  simp [fernetTag, List.isPrefixOf]

theorem dropWhile_star (n : Nat) (l : List Char) :
    List.dropWhile (fun c => decide (c = '*'))
      (List.replicate n '*' ++ ':' :: l) = ':' :: l := by
  induction n with
  | zero => simp [List.dropWhile]
  | succ k ih => simp [List.replicate_succ, List.dropWhile, ih]

theorem fernetPayload_encrypt (nonce : Nat) (data : List Char) (h : data ≠ []) :
    fernetPayload (encrypt_data nonce data) = some data := by
  simp only [encrypt_data, if_neg h, fernetPayload, fernetTag_isPrefixOf, if_pos,
    List.drop_left, dropWhile_star]

theorem decrypt_encrypt (nonce : Nat) (data : List Char) :
    decrypt_data (encrypt_data nonce data) = data := by
  by_cases h : data = []
  · subst h; simp [encrypt_data, decrypt_data]
  · have htok : encrypt_data nonce data ≠ [] := by
      simp [encrypt_data, if_neg h, fernetTag]
    simp [decrypt_data, if_neg htok, fernetPayload_encrypt nonce data h]

/-- C8: for every string `x` and every fresh IV, `decrypt(encrypt(x)) = x`,
including the empty string (and arbitrary unicode content, since `Char`
ranges over all scalar values); moreover `encrypt ""` yields `""` by the
short-circuit, never entering the cipher. -/
theorem C8_encrypt_roundtrip :
    (∀ (nonce : Nat) (x : List Char), decrypt_data (encrypt_data nonce x) = x) ∧
    (∀ nonce : Nat, encrypt_data nonce [] = []) := by
  refine ⟨fun nonce x => decrypt_encrypt nonce x, fun nonce => ?_⟩
  simp [encrypt_data]

/-- C9: every input that is not a well-formed ciphertext under the current
key (legacy plaintext) is returned unchanged by `decrypt_data`; being a total
function, it never raises to the caller. -/
theorem C9_decrypt_legacy (s : List Char) (h : fernetPayload s = none) :
    decrypt_data s = s := by
  by_cases he : s = []
  · subst he; simp [decrypt_data]
  · simp [decrypt_data, if_neg he, h]

/-- Witness for C9 at the concrete legacy value `"legacy"`. -/
theorem C9_decrypt_legacy_witness :
    decrypt_data (str "legacy") = str "legacy" :=
  C9_decrypt_legacy (str "legacy") (by decide)

/-! ## Input validation (`src/urban_mobility/input_validation.py`) -/

def isUpperAZ (c : Char) : Bool := decide ('A' ≤ c) && decide (c ≤ 'Z')

def isLowerAZ (c : Char) : Bool := decide ('a' ≤ c) && decide (c ≤ 'z')

def isDigit09 (c : Char) : Bool := decide ('0' ≤ c) && decide (c ≤ '9')

def isLetterAZ (c : Char) : Bool := isUpperAZ c || isLowerAZ c

/-- The characters of the regex class `[A-Za-z0-9_'.]` (username body). -/
def usernameChar (c : Char) : Bool :=
  isLetterAZ c || isDigit09 c || decide (c = '_') || decide (c = Char.ofNat 39) ||
    decide (c = '.')

/-- `validate_username` (input_validation.py lines 4-23): 8-10 characters,
starting with a letter or underscore, drawn from `[A-Za-z0-9_'.]`. -/
def validate_username (u : List Char) : Bool :=
  if u = [] || decide (u.length < 8) || decide (u.length > 10) then false
  else
    match u with
    | [] => false
    | c :: _ => (isLetterAZ c || decide (c = '_')) && u.all usernameChar

/-- The special characters of the password regex class
`[~!@#$%&_\-+=`|\\(){}[\]:;\'<>,.?/]`, given by code point. -/
def specialChars : List Char :=
  [126, 33, 64, 35, 36, 37, 38, 95, 45, 43, 61, 96, 124, 92, 40, 41, 123,
    125, 91, 93, 58, 59, 39, 60, 62, 44, 46, 63, 47].map Char.ofNat

/-- `validate_password` (input_validation.py lines 25-43): 12-30 characters
with at least one lowercase, one uppercase, one digit and one special
character. -/
def validate_password (p : List Char) : Bool :=
  if p = [] || decide (p.length < 12) || decide (p.length > 30) then false
  else
    p.any isLowerAZ && p.any isUpperAZ && p.any isDigit09 &&
      p.any (fun c => specialChars.contains c)

/-! ## Data model and system state

One record type per SQLite table of `src/urban_mobility/db.py` (lines
18-85), and one state record bundling the tables, the in-memory
failed-attempt map of auth.py, the backup directory and the live data files
of backup.py, and the randomness counter. -/

/-- A row of the `users` table; `username` is the stored column value,
which under normal operation is a Fernet ciphertext (db.py line 139). -/
structure UserRow where
  username : List Char
  password_hash : List Char
  role : List Char
  first_name : List Char
  last_name : List Char
  registration_date : Int
deriving Repr, DecidableEq

/-- A row of the `logs` table; `description` and `additional_info` are
stored encrypted (db.py lines 638-651). -/
structure LogEntry where
  timestamp : Int
  username : List Char
  description : List Char
  additional_info : List Char
  suspicious : Bool
deriving Repr, DecidableEq

/-- A row of the `restore_codes` table (db.py lines 77-83). -/
structure CodeRow where
  code : List Char
  system_admin_username : List Char
  backup_name : List Char
  created_date : Int
  used : Bool
deriving Repr, DecidableEq

/-- A backup archive in `backups/`: its filename and an opaque fingerprint
of the bundled data files (data.db, fernet.key, salt.key, logs.db). -/
structure Archive where
  name : List Char
  content : Nat
deriving Repr, DecidableEq

/-- The whole persistent and in-memory state the claims range over. `ctr`
is the fresh-randomness counter: each Fernet encryption and each bcrypt
salt consumes one tick. `live` is the fingerprint of the live data files
that a restore overwrites. -/
structure Sys where
  users : List UserRow
  failed_attempts : List (List Char × List Int)
  codes : List CodeRow
  backups : List Archive
  live : Nat
  logs : List LogEntry
  ctr : Nat
deriving Repr, DecidableEq

/-! ## Audit log (`db.log_event`, db.py lines 638-651) -/

/-- `log_event`: encrypts the description, encrypts `additional_info` only
when nonempty (the Python `if additional_info else ""`), and appends one
row with the caller-supplied suspicious flag. -/
def log_event (now : Int) (description username additional_info : List Char)
    (suspicious : Bool) (st : Sys) : Sys :=
  let encrypted_description := encrypt_data st.ctr description
  if additional_info = [] then
    { st with
      logs := st.logs ++ [⟨now, username, encrypted_description, [], suspicious⟩],
      ctr := st.ctr + 1 }
  else
    { st with
      logs := st.logs ++ [⟨now, username, encrypted_description,
        encrypt_data (st.ctr + 1) additional_info, suspicious⟩],
      ctr := st.ctr + 2 }

theorem log_event_logs_length (now : Int) (d u i : List Char) (s : Bool)
    (st : Sys) :
    (log_event now d u i s st).logs.length = st.logs.length + 1 := by
  unfold log_event
  split <;> simp

theorem log_event_last_suspicious (now : Int) (d u i : List Char) (s : Bool)
    (st : Sys) :
    (log_event now d u i s st).logs.getLast?.map LogEntry.suspicious = some s := by
  unfold log_event
  split <;> simp [List.getLast?_concat]

theorem log_event_users (now : Int) (d u i : List Char) (s : Bool) (st : Sys) :
    (log_event now d u i s st).users = st.users := by
  unfold log_event
  split <;> simp

theorem log_event_live (now : Int) (d u i : List Char) (s : Bool) (st : Sys) :
    (log_event now d u i s st).live = st.live := by
  unfold log_event
  split <;> simp

theorem log_event_codes (now : Int) (d u i : List Char) (s : Bool) (st : Sys) :
    (log_event now d u i s st).codes = st.codes := by
  unfold log_event
  split <;> simp

theorem log_event_backups (now : Int) (d u i : List Char) (s : Bool) (st : Sys) :
    (log_event now d u i s st).backups = st.backups := by
  unfold log_event
  split <;> simp

/-! ## Credential store (`src/urban_mobility/db.py` lines 88-149) -/

/-- Lowercasing, as Python's `str.lower` on the identifier alphabet. -/
def lower (s : List Char) : List Char := s.map Char.toLower

/-- `_find_user_row` (db.py lines 88-105): scans all rows, decrypts each
stored username (falling back to the raw value, which `decrypt_data`
already does internally) and compares case-insensitively. -/
def find_user_row (username : List Char) (users : List UserRow) :
    Option UserRow :=
  users.find? (fun r => decide (lower (decrypt_data r.username) = lower username))

/-- `get_user_by_username` (db.py lines 111-131): the found row with its
username decrypted. -/
def get_user_by_username (username : List Char) (users : List UserRow) :
    Option UserRow :=
  (find_user_row username users).map
    (fun r => { r with username := decrypt_data r.username })

/-- `add_user` (db.py lines 133-149): encrypts the username with a fresh
Fernet IV, then INSERTs; the `username TEXT PRIMARY KEY` constraint
rejects (IntegrityError, returning false) exactly when the *stored column
value*, i.e. the fresh ciphertext, already occurs. -/
def add_user (now : Int) (nonce : Nat)
    (username password_hash role first_name last_name : List Char)
    (users : List UserRow) : Bool × List UserRow :=
  let encrypted_username := encrypt_data nonce username
  if users.any (fun r => decide (r.username = encrypted_username)) then
    (false, users)
  else
    (true, users ++
      [⟨encrypted_username, password_hash, role, first_name, last_name, now⟩])

/-! ## Authentication engine (`src/urban_mobility/auth.py`) -/

/-- `hash_password` (auth.py lines 13-15): bcrypt with a fresh salt,
modelled as a salted tagged value that `check_password` can verify. -/
def hash_password (saltv : Nat) (password : List Char) : List Char :=
  'B' :: (List.replicate saltv '*' ++ ':' :: password)

/-- `check_password` (auth.py lines 17-19): bcrypt verification, true
exactly when the hash was produced from this password (any salt). -/
def check_password (password hashed : List Char) : Bool :=
  match hashed with
  | 'B' :: rest =>
    decide (rest.dropWhile (fun c => decide (c = '*')) = ':' :: password)
  | _ => false

theorem check_hash_password (saltv : Nat) (p : List Char) :
    check_password p (hash_password saltv p) = true := by
  simp [check_password, hash_password, dropWhile_star]

/-- `can_create_user` (auth.py lines 112-119). -/
def can_create_user (current_role target_role : List Char) : Bool :=
  if current_role = str "super_admin" then true
  else if current_role = str "system_admin" then
    decide (target_role = str "service_engineer")
  else false

/-- The role-validity test of `register_user` (auth.py line 95). -/
def validRole (role : List Char) : Bool :=
  decide (role = str "super_admin") || decide (role = str "system_admin") ||
    decide (role = str "service_engineer")

/-- `register_user` (auth.py lines 78-110): permission check, then input
validation (short-circuit, first failure wins), then hash and insert; only
the two insertion outcomes call `log_event`, the early returns do not. -/
def register_user (now : Int)
    (username password role first_name last_name current_user_role : List Char)
    (st : Sys) : (Bool × List Char) × Sys :=
  if ¬ can_create_user current_user_role role then
    ((false, str "Geen toestemming om deze rol aan te maken"), st)
  else if ¬ validate_username username then
    ((false, str "Ongeldige gebruikersnaam format"), st)
  else if ¬ validate_password password then
    ((false, str "Wachtwoord voldoet niet aan eisen"), st)
  else if ¬ validRole role then
    ((false, str "Ongeldige rol"), st)
  else if first_name = [] || last_name = [] then
    ((false, str "Voor- en achternaam zijn verplicht"), st)
  else
    let password_hash := hash_password st.ctr password
    let st1 : Sys := { st with ctr := st.ctr + 1 }
    let res := add_user now st1.ctr username password_hash role first_name
      last_name st1.users
    let st2 : Sys := { st1 with users := res.2, ctr := st1.ctr + 1 }
    if res.1 then
      ((true, str "Gebruiker succesvol aangemaakt"),
        log_event now (str "Nieuwe gebruiker aangemaakt") username
          (str "Rol: " ++ role ++ str ", Naam: " ++ first_name ++ str " " ++
            last_name) false st2)
    else
      ((false, str "Gebruiker aanmaken mislukt"),
        log_event now (str "Mislukte gebruiker aanmaak") []
          (str "Gebruikersnaam: " ++ username ++ str " (mogelijk al in gebruik)")
          false st2)

theorem log_event_logs_shape (now : Int) (d u i : List Char) (s : Bool)
    (st : Sys) :
    ∃ e, (log_event now d u i s st).logs = st.logs ++ [e] := by
  unfold log_event
  split
  · exact ⟨_, rfl⟩
  · exact ⟨_, rfl⟩

/-- C1: starting from an empty store, registering the same username twice
(valid inputs, acting as super_admin) succeeds BOTH times, leaving two
stored credentials whose decrypted usernames coincide case-insensitively:
the username is encrypted with a fresh Fernet IV before the INSERT, so the
`username TEXT PRIMARY KEY` constraint compares two different ciphertexts
and never fires, and `add_user` never reports the duplicate as a
uniqueness violation. -/
theorem C1_duplicate_username_inserted :
    (register_user 0 (str "alice_doe") (str "Abcdefgh1234!")
        (str "service_engineer") (str "Jan") (str "Doe") (str "super_admin")
        (Sys.mk [] [] [] [] 0 [] 0)).1.1 = true ∧
    ((register_user 0 (str "alice_doe") (str "Abcdefgh1234!")
        (str "service_engineer") (str "Jan") (str "Doe") (str "super_admin")
        (register_user 0 (str "alice_doe") (str "Abcdefgh1234!")
          (str "service_engineer") (str "Jan") (str "Doe") (str "super_admin")
          (Sys.mk [] [] [] [] 0 [] 0)).2).1.1 = true ∧
      ((register_user 0 (str "alice_doe") (str "Abcdefgh1234!")
          (str "service_engineer") (str "Jan") (str "Doe") (str "super_admin")
          (register_user 0 (str "alice_doe") (str "Abcdefgh1234!")
            (str "service_engineer") (str "Jan") (str "Doe") (str "super_admin")
            (Sys.mk [] [] [] [] 0 [] 0)).2).2.users.map
          (fun r => lower (decrypt_data r.username)) =
        [lower (str "alice_doe"), lower (str "alice_doe")])) := by
  decide

/-- The condition under which `register_user` reaches the insertion
attempt: all permission and validation checks pass. -/
def registrationPasses (username password role first_name last_name
    current_user_role : List Char) : Prop :=
  can_create_user current_user_role role = true ∧
    validate_username username = true ∧ validate_password password = true ∧
    validRole role = true ∧ first_name ≠ [] ∧ last_name ≠ []

instance (u p r fn ln cur : List Char) :
    Decidable (registrationPasses u p r fn ln cur) := by
  unfold registrationPasses; infer_instance

/-- C2 counterexample: a permission-denied registration (a
service_engineer attempting to create a service_engineer) appends NO log
entry at all, refuting "every call appends exactly one LogEntry". -/
theorem C2_counterexample_no_log_on_denial :
    (register_user 0 (str "alice_doe") (str "Abcdefgh1234!")
        (str "service_engineer") (str "Jan") (str "Doe")
        (str "service_engineer") (Sys.mk [] [] [] [] 0 [] 0)).1.1 = false ∧
    (register_user 0 (str "alice_doe") (str "Abcdefgh1234!")
        (str "service_engineer") (str "Jan") (str "Doe")
        (str "service_engineer") (Sys.mk [] [] [] [] 0 [] 0)).2.logs.length ≠
      (Sys.mk [] [] [] [] 0 [] 0 : Sys).logs.length + 1 := by
  decide

/-- C2 amended: `register_user` appends exactly one LogEntry precisely when
it reaches the insertion attempt (all permission and validation checks
pass, whether the insert then succeeds or not); the permission-denied and
validation-failure outcomes append none. The existing log is always
preserved as a prefix. -/
theorem C2_amended_register_logging (now : Int)
    (u p r fn ln cur : List Char) (st : Sys) :
    (register_user now u p r fn ln cur st).2.logs.length =
      st.logs.length + (if registrationPasses u p r fn ln cur then 1 else 0) ∧
    ∃ t, (register_user now u p r fn ln cur st).2.logs = st.logs ++ t := by
  by_cases h1 : can_create_user cur r = true
  · by_cases h2 : validate_username u = true
    · by_cases h3 : validate_password p = true
      · by_cases h4 : validRole r = true
        · by_cases h5 : fn = [] ∨ ln = []
          · have hnp : ¬ registrationPasses u p r fn ln cur := by
              rcases h5 with h | h <;> exact fun hp => by
                simp [registrationPasses, h] at hp
            simp [register_user, h1, h2, h3, h4, h5, if_neg hnp]
          · have hp : registrationPasses u p r fn ln cur :=
              ⟨h1, h2, h3, h4, fun h => h5 (Or.inl h), fun h => h5 (Or.inr h)⟩
            have hfn : ¬ fn = [] := fun h => h5 (Or.inl h)
            have hln : ¬ ln = [] := fun h => h5 (Or.inr h)
            simp only [register_user]
            rw [if_neg (by simp [h1]), if_neg (by simp [h2]),
              if_neg (by simp [h3]), if_neg (by simp [h4]),
              if_neg (by simp [hfn, hln]), if_pos hp]
            constructor
            · split
              · simp [log_event_logs_length]
              · simp [log_event_logs_length]
            · split
              · obtain ⟨e, he⟩ := log_event_logs_shape now
                  (str "Nieuwe gebruiker aangemaakt") u
                  (str "Rol: " ++ r ++ str ", Naam: " ++ fn ++ str " " ++ ln)
                  false _
                exact ⟨[e], he⟩
              · obtain ⟨e, he⟩ := log_event_logs_shape now
                  (str "Mislukte gebruiker aanmaak") []
                  (str "Gebruikersnaam: " ++ u ++ str " (mogelijk al in gebruik)")
                  false _
                exact ⟨[e], he⟩
        · have hnp : ¬ registrationPasses u p r fn ln cur := fun hp => h4 hp.2.2.2.1
          simp [register_user, h1, h2, h3, h4, if_neg hnp]
      · have hnp : ¬ registrationPasses u p r fn ln cur := fun hp => h3 hp.2.2.1
        simp [register_user, h1, h2, h3, if_neg hnp]
    · have hnp : ¬ registrationPasses u p r fn ln cur := fun hp => h2 hp.2.1
      simp [register_user, h1, h2, if_neg hnp]
  · have hnp : ¬ registrationPasses u p r fn ln cur := fun hp => h1 hp.1
    simp [register_user, h1, if_neg hnp]

/-- Witness for C2's amended theorem at a concrete passing registration:
exactly one log entry is appended. -/
theorem C2_amended_register_logging_witness :
    (register_user 0 (str "alice_doe") (str "Abcdefgh1234!")
        (str "service_engineer") (str "Jan") (str "Doe") (str "super_admin")
        (Sys.mk [] [] [] [] 0 [] 0)).2.logs.length =
      (Sys.mk [] [] [] [] 0 [] 0 : Sys).logs.length +
        (if registrationPasses (str "alice_doe") (str "Abcdefgh1234!")
            (str "service_engineer") (str "Jan") (str "Doe")
            (str "super_admin") then 1 else 0) ∧
    ∃ t, (register_user 0 (str "alice_doe") (str "Abcdefgh1234!")
        (str "service_engineer") (str "Jan") (str "Doe") (str "super_admin")
        (Sys.mk [] [] [] [] 0 [] 0)).2.logs =
      (Sys.mk [] [] [] [] 0 [] 0 : Sys).logs ++ t :=
  C2_amended_register_logging 0 (str "alice_doe") (str "Abcdefgh1234!")
    (str "service_engineer") (str "Jan") (str "Doe") (str "super_admin")
    (Sys.mk [] [] [] [] 0 [] 0)

/-! ## Failed-attempt window and login (`src/urban_mobility/auth.py` lines
8-76)

The module-level dict `failed_attempts` is modelled as an association list
keyed by the *exact* username string; Python dict insertion order is
preserved. -/

def fifteenMinutes : Int := 900

/-- Python `failed_attempts.get(username)` / `username in failed_attempts`. -/
def lookupFA (u : List Char) (m : List (List Char × List Int)) :
    Option (List Int) :=
  (m.find? (fun p => decide (p.1 = u))).map (fun p => p.2)

/-- Python `failed_attempts[username] = v` for a present key. -/
def setFA (u : List Char) (v : List Int) (m : List (List Char × List Int)) :
    List (List Char × List Int) :=
  m.map (fun p => if p.1 = u then (p.1, v) else p)

/-- Python `del failed_attempts[username]` (guarded by membership). -/
def delFA (u : List Char) (m : List (List Char × List Int)) :
    List (List Char × List Int) :=
  m.filter (fun p => ! decide (p.1 = u))

/-- The lazy pruning of auth.py lines 26-31: keep timestamps strictly newer
than `now` minus 15 minutes. -/
def prune (now : Int) (ts : List Int) : List Int :=
  ts.filter (fun t => decide (now - fifteenMinutes < t))

/-- `is_suspicious_login_attempt` (auth.py lines 21-36): prunes the stored
window in place, then reports whether it holds at least 3 timestamps.
Returns the flag together with the updated map. -/
def is_suspicious_login_attempt (now : Int) (u : List Char)
    (m : List (List Char × List Int)) :
    Bool × List (List Char × List Int) :=
  match lookupFA u m with
  | none => (false, m)
  | some ts =>
    let ts' := prune now ts
    (decide (3 ≤ ts'.length), setFA u ts' m)

/-- `record_failed_attempt` (auth.py lines 38-43): appends the current
timestamp to the window of the exact username string, creating it if
absent. No pruning happens here. -/
def record_failed_attempt (now : Int) (u : List Char)
    (m : List (List Char × List Int)) : List (List Char × List Int) :=
  match lookupFA u m with
  | none => m ++ [(u, [now])]
  | some ts => setFA u (ts ++ [now]) m

/-- The shared failure tail of `login` (auth.py lines 69-76): record the
attempt, recompute suspicion for the *message only*, and log with the
flag computed before the attempt was appended. -/
def loginFailure (now : Int) (username : List Char) (suspicious : Bool)
    (st : Sys) : Option (List Char × List Char) × Sys :=
  let m2 := record_failed_attempt now username st.failed_attempts
  let post := is_suspicious_login_attempt now username m2
  let additional :=
    if post.1 then
      str "Gebruikersnaam: " ++ username ++
        str " - Meerdere mislukte pogingen gedetecteerd"
    else str "Gebruikersnaam: " ++ username
  (none,
    log_event now (str "Mislukte login poging") [] additional suspicious
      { st with failed_attempts := post.2 })

/-- `login` (auth.py lines 45-76): precompute suspicion (pruning the
window), then the hard-coded super-admin pair, then the stored-credential
check; successes log with the precomputed flag and clear the window,
failures go through `loginFailure`. -/
def login (now : Int) (username password : List Char) (st : Sys) :
    Option (List Char × List Char) × Sys :=
  let pre := is_suspicious_login_attempt now username st.failed_attempts
  let st0 : Sys := { st with failed_attempts := pre.2 }
  if username = str "super_admin" ∧ password = str "Admin_123?" then
    let st1 := log_event now (str "Succesvolle login") username
      (str "Rol: super_admin") pre.1 st0
    (some (str "super_admin", username),
      { st1 with failed_attempts := delFA username st1.failed_attempts })
  else
    match get_user_by_username username st0.users with
    | some user =>
      if check_password password user.password_hash then
        let st1 := log_event now (str "Succesvolle login") username
          (str "Rol: " ++ user.role) pre.1 st0
        (some (user.role, username),
          { st1 with failed_attempts := delFA username st1.failed_attempts })
      else loginFailure now username pre.1 st0
    | none => loginFailure now username pre.1 st0

theorem loginFailure_fst (now : Int) (u : List Char) (s : Bool) (st : Sys) :
    (loginFailure now u s st).1 = none := rfl

theorem loginFailure_logs (now : Int) (u : List Char) (s : Bool) (st : Sys) :
    (loginFailure now u s st).2.logs.length = st.logs.length + 1 ∧
    (loginFailure now u s st).2.logs.getLast?.map LogEntry.suspicious =
      some s := by
  unfold loginFailure
  exact ⟨log_event_logs_length .., log_event_last_suspicious ..⟩

/-- C3 counterexample: a 3rd failed attempt for a username whose window
already holds 2 recent timestamps. After the attempt is appended the
window holds 3 timestamps inside the trailing 15 minutes — the claim
demands `suspicious = true` — yet the emitted LogEntry carries
`suspicious = false`, because `login` passes the flag computed before
`record_failed_attempt` ran (auth.py lines 51 and 75). -/
theorem C3_counterexample_flag_preattempt :
    (login 900 (str "ghost_user") (str "pw")
        (Sys.mk [] [(str "ghost_user", [100, 200])] [] [] 0 [] 0)).1 = none ∧
    lookupFA (str "ghost_user")
        (login 900 (str "ghost_user") (str "pw")
          (Sys.mk [] [(str "ghost_user", [100, 200])] [] [] 0 [] 0)).2.failed_attempts =
      some [100, 200, 900] ∧
    3 ≤ (prune 900 [100, 200, 900]).length ∧
    (login 900 (str "ghost_user") (str "pw")
        (Sys.mk [] [(str "ghost_user", [100, 200])] [] [] 0 [] 0)).2.logs.getLast?.map
      LogEntry.suspicious = some false := by
  decide

/-- C3 amended: on every failed login the emitted LogEntry carries the
suspicious flag computed BEFORE the current attempt's timestamp was
appended to the window; the post-append recomputation only selects the
message text. -/
theorem C3_amended_flag_is_preattempt (now : Int) (u p : List Char) (st : Sys)
    (hsa : ¬ (u = str "super_admin" ∧ p = str "Admin_123?"))
    (hpw : ∀ user, get_user_by_username u st.users = some user →
      check_password p user.password_hash = false) :
    (login now u p st).1 = none ∧
    (login now u p st).2.logs.length = st.logs.length + 1 ∧
    (login now u p st).2.logs.getLast?.map LogEntry.suspicious =
      some (is_suspicious_login_attempt now u st.failed_attempts).1 := by
  simp only [login]
  rw [if_neg hsa]
  cases hu : get_user_by_username u st.users with
  | none =>
    exact ⟨loginFailure_fst .., (loginFailure_logs ..).1, (loginFailure_logs ..).2⟩
  | some user =>
    dsimp only
    rw [if_neg (by simp [hpw user hu])]
    exact ⟨loginFailure_fst .., (loginFailure_logs ..).1, (loginFailure_logs ..).2⟩

/-- Witness for C3's amended theorem: the concrete 3rd failed attempt of
the counterexample indeed logs the pre-attempt flag. -/
theorem C3_amended_flag_is_preattempt_witness :
    (login 900 (str "ghost_user") (str "pw")
        (Sys.mk [] [(str "ghost_user", [100, 200])] [] [] 0 [] 0)).1 = none ∧
    (login 900 (str "ghost_user") (str "pw")
        (Sys.mk [] [(str "ghost_user", [100, 200])] [] [] 0 [] 0)).2.logs.length =
      (Sys.mk [] [(str "ghost_user", [100, 200])] [] [] 0 [] 0 : Sys).logs.length + 1 ∧
    (login 900 (str "ghost_user") (str "pw")
        (Sys.mk [] [(str "ghost_user", [100, 200])] [] [] 0 [] 0)).2.logs.getLast?.map
      LogEntry.suspicious =
      some (is_suspicious_login_attempt 900 (str "ghost_user")
        (Sys.mk [] [(str "ghost_user", [100, 200])] [] [] 0 [] 0 : Sys).failed_attempts).1 :=
  C3_amended_flag_is_preattempt 900 (str "ghost_user") (str "pw")
    (Sys.mk [] [(str "ghost_user", [100, 200])] [] [] 0 [] 0)
    (by decide)
    (fun user h => by simp [get_user_by_username, find_user_row] at h)

theorem lookupFA_setFA_self (u : List Char) (v : List Int)
    (m : List (List Char × List Int)) (ts : List Int)
    (h : lookupFA u m = some ts) : lookupFA u (setFA u v m) = some v := by
  induction m with
  | nil => simp [lookupFA] at h
  | cons p rest ih =>
    by_cases hp : p.1 = u
    · simp [lookupFA, setFA, List.find?, hp]
    · simp only [lookupFA, setFA, List.map_cons, List.find?, hp, if_false,
        decide_eq_true_eq, if_neg hp] at h ⊢
      simp only [lookupFA, setFA] at ih
      exact ih h

/-- C7: (a) the suspicious-login check returns true exactly when the
username's window, pruned to the trailing 15 minutes, holds at least 3
timestamps; (b) when the window already holds 3 timestamps inside the
trailing 15 minutes, the next login attempt — whatever its outcome — logs
exactly one entry with `suspicious = true`; (c) when every stored
timestamp is at least 15 minutes old, the check reports false and the
stored window is reset to empty. -/
theorem C7_suspicious_window :
    (∀ (now : Int) (u : List Char) (m : List (List Char × List Int)),
      ((is_suspicious_login_attempt now u m).1 = true ↔
        3 ≤ (prune now ((lookupFA u m).getD [])).length)) ∧
    (∀ (now : Int) (u p : List Char) (st : Sys) (t1 t2 t3 : Int),
      lookupFA u st.failed_attempts = some [t1, t2, t3] →
      now - fifteenMinutes < t1 → now - fifteenMinutes < t2 →
      now - fifteenMinutes < t3 →
      (login now u p st).2.logs.length = st.logs.length + 1 ∧
      (login now u p st).2.logs.getLast?.map LogEntry.suspicious = some true) ∧
    (∀ (now : Int) (u : List Char) (m : List (List Char × List Int))
      (ts : List Int),
      lookupFA u m = some ts → (∀ t ∈ ts, t ≤ now - fifteenMinutes) →
      (is_suspicious_login_attempt now u m).1 = false ∧
      lookupFA u (is_suspicious_login_attempt now u m).2 = some []) := by
  refine ⟨fun now u m => ?_, fun now u p st t1 t2 t3 hw h1 h2 h3 => ?_,
    fun now u m ts hw hold => ?_⟩
  · cases h : lookupFA u m with
    | none => simp [is_suspicious_login_attempt, h, prune]
    | some ts => simp [is_suspicious_login_attempt, h]
  · have hpre : (is_suspicious_login_attempt now u st.failed_attempts).1 = true := by
      simp [is_suspicious_login_attempt, hw, prune, h1, h2, h3]
    simp only [login]
    by_cases hsa : u = str "super_admin" ∧ p = str "Admin_123?"
    · rw [if_pos hsa]
      rw [hpre]
      exact ⟨log_event_logs_length .., log_event_last_suspicious ..⟩
    · rw [if_neg hsa]
      cases hu : get_user_by_username u st.users with
      | none =>
        dsimp only
        rw [hpre]
        exact ⟨(loginFailure_logs ..).1, (loginFailure_logs ..).2⟩
      | some user =>
        dsimp only
        rw [hpre]
        by_cases hcp : check_password p user.password_hash = true
        · rw [if_pos hcp]
          exact ⟨log_event_logs_length .., log_event_last_suspicious ..⟩
        · rw [if_neg hcp]
          exact ⟨(loginFailure_logs ..).1, (loginFailure_logs ..).2⟩
  · have hpr : prune now ts = [] := by
      simp only [prune, List.filter_eq_nil_iff]
      intro t ht
      simp only [decide_eq_true_eq, not_lt]
      exact hold t ht
    constructor
    · simp [is_suspicious_login_attempt, hw, hpr]
    · simp only [is_suspicious_login_attempt, hw, hpr]
      exact lookupFA_setFA_self u [] m ts hw

/-- Witness for C7: with 3 recent failures on record, the 4th attempt's
log entry is suspicious. -/
theorem C7_suspicious_window_witness :
    (login 900 (str "victim_usr") (str "pw")
        (Sys.mk [] [(str "victim_usr", [100, 200, 300])] [] [] 0 [] 0)).2.logs.length =
      (Sys.mk [] [(str "victim_usr", [100, 200, 300])] [] [] 0 [] 0 : Sys).logs.length + 1 ∧
    (login 900 (str "victim_usr") (str "pw")
        (Sys.mk [] [(str "victim_usr", [100, 200, 300])] [] [] 0 [] 0)).2.logs.getLast?.map
      LogEntry.suspicious = some true :=
  C7_suspicious_window.2.1 900 (str "victim_usr") (str "pw")
    (Sys.mk [] [(str "victim_usr", [100, 200, 300])] [] [] 0 [] 0)
    100 200 300 (by decide) (by decide) (by decide) (by decide)

theorem lookupFA_setFA_ne (u v : List Char) (w : List Int)
    (m : List (List Char × List Int)) (hne : ¬ u = v) :
    lookupFA v (setFA u w m) = lookupFA v m := by
  induction m with
  | nil => rfl
  | cons p rest ih =>
    by_cases hp : p.1 = u
    · have hv : ¬ p.1 = v := fun h => hne (hp.symm.trans h)
      simp only [lookupFA, setFA, List.map_cons, List.find?, if_pos hp, hv,
        decide_False] at ih ⊢
      exact ih
    · simp only [lookupFA, setFA, List.map_cons, List.find?, if_neg hp] at ih ⊢
      by_cases hpv : p.1 = v
      · simp [hpv]
      · simp only [hpv, decide_False] at ih ⊢
        exact ih

theorem lookupFA_append_single_ne (u v : List Char) (w : List Int)
    (m : List (List Char × List Int)) (hne : ¬ u = v) :
    lookupFA v (m ++ [(u, w)]) = lookupFA v m := by
  induction m with
  | nil => simp [lookupFA, List.find?, hne]
  | cons p rest ih =>
    by_cases hp : p.1 = v
    · simp [lookupFA, List.find?, hp]
    · simp only [lookupFA, List.cons_append, List.find?, hp, decide_False] at ih ⊢
      exact ih

theorem record_preserves_other (now : Int) (u v : List Char)
    (m : List (List Char × List Int)) (hne : ¬ u = v) :
    lookupFA v (record_failed_attempt now u m) = lookupFA v m := by
  unfold record_failed_attempt
  cases h : lookupFA u m with
  | none => exact lookupFA_append_single_ne u v [now] m hne
  | some ts => exact lookupFA_setFA_ne u v (ts ++ [now]) m hne

/-- C10: the failed-attempt window is keyed by the exact username string:
(i) recording a failure for one username never touches any other
username's window — in particular not a spelling differing only in case;
(ii) account lookup is case-insensitive, resolving both spellings to the
same stored row; (iii) alternating 4 failed attempts between two
case-variant spellings leaves each window with only 2 timestamps, so
neither spelling's suspicious check fires even though 4 failures hit the
same account. -/
theorem C10_case_sensitive_window :
    (∀ (now : Int) (u v : List Char) (m : List (List Char × List Int)),
      ¬ u = v → lookupFA v (record_failed_attempt now u m) = lookupFA v m) ∧
    (∀ (u v : List Char) (users : List UserRow), lower u = lower v →
      get_user_by_username u users = get_user_by_username v users) ∧
    (∀ (now t1 t2 t3 t4 : Int) (u v : List Char), ¬ u = v → lower u = lower v →
      (is_suspicious_login_attempt now u
        (record_failed_attempt t4 v (record_failed_attempt t3 u
          (record_failed_attempt t2 v (record_failed_attempt t1 u []))))).1 = false ∧
      (is_suspicious_login_attempt now v
        (record_failed_attempt t4 v (record_failed_attempt t3 u
          (record_failed_attempt t2 v (record_failed_attempt t1 u []))))).1 = false ∧
      lookupFA u
        (record_failed_attempt t4 v (record_failed_attempt t3 u
          (record_failed_attempt t2 v (record_failed_attempt t1 u [])))) =
        some [t1, t3] ∧
      lookupFA v
        (record_failed_attempt t4 v (record_failed_attempt t3 u
          (record_failed_attempt t2 v (record_failed_attempt t1 u [])))) =
        some [t2, t4]) := by
  refine ⟨record_preserves_other, fun u v users hlow => ?_,
    fun now t1 t2 t3 t4 u v hne _hlow => ?_⟩
  · simp only [get_user_by_username, find_user_row, hlow]
  · have hvu : ¬ v = u := fun h => hne h.symm
    have h1 : record_failed_attempt t1 u ([] : List (List Char × List Int)) =
        [(u, [t1])] := rfl
    have h2 : record_failed_attempt t2 v [(u, [t1])] = [(u, [t1]), (v, [t2])] := by
      have hl : lookupFA v [(u, [t1])] = none := by
        simp [lookupFA, List.find?, hne]
      unfold record_failed_attempt
      rw [hl]
      rfl
    have h3 : record_failed_attempt t3 u [(u, [t1]), (v, [t2])] =
        [(u, [t1, t3]), (v, [t2])] := by
      have hl : lookupFA u [(u, [t1]), (v, [t2])] = some [t1] := by
        simp [lookupFA, List.find?]
      unfold record_failed_attempt
      rw [hl]
      simp [setFA, hvu]
    have h4 : record_failed_attempt t4 v [(u, [t1, t3]), (v, [t2])] =
        [(u, [t1, t3]), (v, [t2, t4])] := by
      have hl : lookupFA v [(u, [t1, t3]), (v, [t2])] = some [t2] := by
        simp [lookupFA, List.find?, hne]
      unfold record_failed_attempt
      rw [hl]
      simp [setFA, hne]
    have hM : record_failed_attempt t4 v (record_failed_attempt t3 u
        (record_failed_attempt t2 v (record_failed_attempt t1 u []))) =
        [(u, [t1, t3]), (v, [t2, t4])] := by
      rw [h1, h2, h3, h4]
    rw [hM]
    have hlu : lookupFA u [(u, [t1, t3]), (v, [t2, t4])] = some [t1, t3] := by
      simp [lookupFA, List.find?]
    have hlv : lookupFA v [(u, [t1, t3]), (v, [t2, t4])] = some [t2, t4] := by
      simp [lookupFA, List.find?, hne]
    have hlen2 : ∀ t t' : Int, ¬ 3 ≤ (prune now [t, t']).length := by
      intro t t' hge
      simp only [prune] at hge
      have := List.length_filter_le (fun x => decide (now - fifteenMinutes < x)) [t, t']
      simp only [List.length_cons, List.length_nil] at this
      omega
    refine ⟨?_, ?_, hlu, hlv⟩
    · simp only [is_suspicious_login_attempt, hlu]
      exact decide_eq_false (hlen2 t1 t3)
    · simp only [is_suspicious_login_attempt, hlv]
      exact decide_eq_false (hlen2 t2 t4)

/-- Witness for C10: the spellings `"Alice_doe"` and `"alice_doe"`
accumulate separately; after two failures each, neither is suspicious. -/
theorem C10_case_sensitive_window_witness :
    (is_suspicious_login_attempt 1000 (str "Alice_doe")
      (record_failed_attempt 500 (str "alice_doe") (record_failed_attempt 400 (str "Alice_doe")
        (record_failed_attempt 300 (str "alice_doe")
          (record_failed_attempt 200 (str "Alice_doe") []))))).1 = false ∧
    (is_suspicious_login_attempt 1000 (str "alice_doe")
      (record_failed_attempt 500 (str "alice_doe") (record_failed_attempt 400 (str "Alice_doe")
        (record_failed_attempt 300 (str "alice_doe")
          (record_failed_attempt 200 (str "Alice_doe") []))))).1 = false ∧
    lookupFA (str "Alice_doe")
      (record_failed_attempt 500 (str "alice_doe") (record_failed_attempt 400 (str "Alice_doe")
        (record_failed_attempt 300 (str "alice_doe")
          (record_failed_attempt 200 (str "Alice_doe") [])))) = some [200, 400] ∧
    lookupFA (str "alice_doe")
      (record_failed_attempt 500 (str "alice_doe") (record_failed_attempt 400 (str "Alice_doe")
        (record_failed_attempt 300 (str "alice_doe")
          (record_failed_attempt 200 (str "Alice_doe") [])))) = some [300, 500] :=
  C10_case_sensitive_window.2.2 1000 200 300 400 500 (str "Alice_doe")
    (str "alice_doe") (by decide) (by decide)

/-! ## Restore-code broker (`src/urban_mobility/db.py` lines 577-632) -/

/-- `add_restore_code` (db.py lines 577-589): INSERT with `code TEXT
PRIMARY KEY`; a conflicting token is caught by the broad `except` and
reported as creation failure. -/
def add_restore_code (code system_admin_username backup_name : List Char)
    (date : Int) (tbl : List CodeRow) : Bool × List CodeRow :=
  if tbl.any (fun r => decide (r.code = code)) then (false, tbl)
  else
    (true, tbl ++ [⟨code, system_admin_username, backup_name, date, false⟩])

/-- `get_restore_code` (db.py lines 591-608): `SELECT ... WHERE code=? AND
used=0`, first row or none — used codes are excluded. -/
def get_restore_code (code : List Char) (tbl : List CodeRow) : Option CodeRow :=
  tbl.find? (fun r => decide (r.code = code) && ! r.used)

/-- `use_restore_code` (db.py lines 610-620): `UPDATE restore_codes SET
used=1 WHERE code=?`, returning `rowcount > 0`; SQLite's rowcount counts
every matched row, including rows whose `used` was already 1. -/
def use_restore_code (code : List Char) (tbl : List CodeRow) :
    Bool × List CodeRow :=
  (decide (0 < (tbl.filter (fun r => decide (r.code = code))).length),
    tbl.map (fun r => if r.code = code then { r with used := true } else r))

/-- `revoke_restore_code` (db.py lines 622-632): `DELETE FROM restore_codes
WHERE code=?`, returning `rowcount > 0`. -/
def revoke_restore_code (code : List Char) (tbl : List CodeRow) :
    Bool × List CodeRow :=
  (decide (0 < (tbl.filter (fun r => decide (r.code = code))).length),
    tbl.filter (fun r => ! decide (r.code = code)))

/-- The operations that can touch the `restore_codes` table after a code
exists: issuing another code, consuming, revoking. -/
inductive BrokerOp where
  | add (code admin backup : List Char) (date : Int)
  | use (code : List Char)
  | revoke (code : List Char)
deriving Repr, DecidableEq

def brokerStep (tbl : List CodeRow) : BrokerOp → List CodeRow
  | .add c a b d => (add_restore_code c a b d tbl).2
  | .use c => (use_restore_code c tbl).2
  | .revoke c => (revoke_restore_code c tbl).2

def brokerRun (tbl : List CodeRow) (ops : List BrokerOp) : List CodeRow :=
  ops.foldl brokerStep tbl

theorem get_restore_code_eq_none_iff (c : List Char) (tbl : List CodeRow) :
    get_restore_code c tbl = none ↔
      ∀ r ∈ tbl, r.code = c → r.used = true := by
  induction tbl with
  | nil => simp [get_restore_code]
  | cons r rest ih =>
    by_cases hc : r.code = c
    · cases hu : r.used
      · simp [get_restore_code, List.find?, hc, hu]
      · simp only [get_restore_code, List.find?, hc, hu, decide_True,
          Bool.not_true, Bool.and_false] at ih ⊢
        rw [ih]
        constructor
        · intro h r' hr' hc'
          rcases List.mem_cons.mp hr' with h' | h'
          · subst h'; exact hu
          · exact h r' h' hc'
        · intro h r' hr' hc'
          exact h r' (List.mem_cons_of_mem r hr') hc'
    · simp only [get_restore_code, List.find?, hc, decide_False,
        Bool.false_and] at ih ⊢
      rw [ih]
      constructor
      · intro h r' hr' hc'
        rcases List.mem_cons.mp hr' with h' | h'
        · subst h'; exact absurd hc' hc
        · exact h r' h' hc'
      · intro h r' hr' hc'
        exact h r' (List.mem_cons_of_mem r hr') hc'

theorem brokerStep_preserves_none (c : List Char) (tbl : List CodeRow)
    (op : BrokerOp) (hop : ∀ a b d, op ≠ BrokerOp.add c a b d)
    (h : get_restore_code c tbl = none) :
    get_restore_code c (brokerStep tbl op) = none := by
  rw [get_restore_code_eq_none_iff] at h ⊢
  cases op with
  | add c' a b d =>
    have hc' : ¬ c' = c := fun he => hop a b d (by rw [he])
    intro r hr hrc
    simp only [brokerStep, add_restore_code] at hr
    split at hr
    · exact h r hr hrc
    · rcases List.mem_append.mp hr with h' | h'
      · exact h r h' hrc
      · simp only [List.mem_singleton] at h'
        subst h'
        exact absurd hrc hc'
  | use c' =>
    intro r hr hrc
    simp only [brokerStep, use_restore_code, List.mem_map] at hr
    obtain ⟨r0, hr0, rfl⟩ := hr
    by_cases h0 : r0.code = c'
    · simp [h0]
    · simp only [if_neg h0] at hrc ⊢
      exact h r0 hr0 hrc
  | revoke c' =>
    intro r hr hrc
    simp only [brokerStep, revoke_restore_code, List.mem_filter] at hr
    exact h r hr.1 hrc

/-- C5 counterexample: issue a code, revoke it (lookup now reports none),
then issue a fresh code with the same token: `lookup` resolves again —
"returns none forever after" fails once the token is re-issued, because
revocation hard-deletes the row that would have made the re-insert a
primary-key conflict. -/
theorem C5_counterexample_reissue_after_revoke :
    get_restore_code (str "RESTCD")
        (brokerRun [] [BrokerOp.add (str "RESTCD") (str "sysadmin01")
          (str "backup_1.zip") 0, BrokerOp.revoke (str "RESTCD")]) = none ∧
    get_restore_code (str "RESTCD")
        (brokerRun [] [BrokerOp.add (str "RESTCD") (str "sysadmin01")
          (str "backup_1.zip") 0, BrokerOp.revoke (str "RESTCD"),
          BrokerOp.add (str "RESTCD") (str "sysadmin02")
            (str "backup_2.zip") 1]) ≠ none := by
  decide

/-- C5 amended: immediately after consuming or revoking a code, `lookup`
of it returns none, and this persists across every later broker operation
that does not issue a new code with the same token (a used code is
indistinguishable from a nonexistent one to `lookup`, which filters
`used=0`); only re-issuing the very same token after a revocation — or
after a revoke of the used row — can make `lookup` resolve again. -/
theorem C5_amended_inert_after_consume_or_revoke :
    (∀ (c : List Char) (tbl : List CodeRow),
      get_restore_code c (use_restore_code c tbl).2 = none) ∧
    (∀ (c : List Char) (tbl : List CodeRow),
      get_restore_code c (revoke_restore_code c tbl).2 = none) ∧
    (∀ (c : List Char) (tbl : List CodeRow) (ops : List BrokerOp),
      (∀ op ∈ ops, ∀ a b d, op ≠ BrokerOp.add c a b d) →
      get_restore_code c tbl = none →
      get_restore_code c (brokerRun tbl ops) = none) := by
  refine ⟨fun c tbl => ?_, fun c tbl => ?_, fun c tbl ops => ?_⟩
  · rw [get_restore_code_eq_none_iff]
    intro r hr hrc
    simp only [use_restore_code, List.mem_map] at hr
    obtain ⟨r0, hr0, rfl⟩ := hr
    by_cases h0 : r0.code = c
    · simp [h0]
    · simp only [if_neg h0] at hrc
      exact absurd hrc h0
  · rw [get_restore_code_eq_none_iff]
    intro r hr hrc
    simp only [revoke_restore_code, List.mem_filter, Bool.not_eq_true',
      decide_eq_false_iff_not] at hr
    exact absurd hrc hr.2
  · induction ops generalizing tbl with
    | nil => intro _ h; exact h
    | cons op rest ih =>
      intro hops h
      exact ih (brokerStep tbl op)
        (fun o ho => hops o (List.mem_cons_of_mem op ho))
        (brokerStep_preserves_none c tbl op
          (hops op (List.mem_cons_self op rest)) h)

/-- Witness for C5's amended theorem: a consumed code stays invisible to
lookup across later consume/revoke traffic on other tokens. -/
theorem C5_amended_inert_witness :
    get_restore_code (str "CODEA")
        (brokerRun [CodeRow.mk (str "CODEA") (str "sysadmin01")
            (str "backup_1.zip") 0 true]
          [BrokerOp.use (str "CODEB"), BrokerOp.revoke (str "CODEB")]) = none :=
  C5_amended_inert_after_consume_or_revoke.2.2 (str "CODEA")
    [CodeRow.mk (str "CODEA") (str "sysadmin01") (str "backup_1.zip") 0 true]
    [BrokerOp.use (str "CODEB"), BrokerOp.revoke (str "CODEB")]
    (by intro op hop a b d; rcases List.mem_cons.mp hop with h | h
        · subst h; simp
        · simp only [List.mem_singleton] at h; subst h; simp)
    (by decide)

theorem use_fst_eq_any (c : List Char) (tbl : List CodeRow) :
    (use_restore_code c tbl).1 = tbl.any (fun r => decide (r.code = c)) := by
  unfold use_restore_code
  induction tbl with
  | nil => rfl
  | cons r rest ih =>
    by_cases h : r.code = c
    · simp [List.filter, h]
    · simp only [List.filter, h, decide_False, List.any_cons, Bool.false_or]
      exact ih

theorem use_preserves_match (c : List Char) (tbl : List CodeRow) :
    ((use_restore_code c tbl).2).any (fun r => decide (r.code = c)) =
      tbl.any (fun r => decide (r.code = c)) := by
  unfold use_restore_code
  induction tbl with
  | nil => rfl
  | cons r rest ih =>
    by_cases h : r.code = c
    · simp [h, ih]
    · simp [h, ih]

/-- C6 counterexample: with a single unused row bearing the code, the
first consume succeeds, and the SECOND consume of the now-used code ALSO
reports success — `rowcount > 0` counts the matched row even though
`used` was already 1 — refuting "the second call must not report
success". -/
theorem C6_counterexample_second_use_succeeds :
    (use_restore_code (str "RESTCODE1")
        [CodeRow.mk (str "RESTCODE1") (str "sysadmin01")
          (str "backup_1.zip") 0 false]).1 = true ∧
    (use_restore_code (str "RESTCODE1")
        (use_restore_code (str "RESTCODE1")
          [CodeRow.mk (str "RESTCODE1") (str "sysadmin01")
            (str "backup_1.zip") 0 false]).2).1 = true := by
  decide

/-- C6 amended: `use_restore_code` reports success exactly when a row with
the code exists, used or not; in particular a second consume after a first
success reports exactly what the first reported, since the UPDATE keeps
the row in place. Only `get_restore_code` filters used codes out. -/
theorem C6_amended_use_ignores_used_flag (c : List Char) (tbl : List CodeRow) :
    (use_restore_code c tbl).1 = tbl.any (fun r => decide (r.code = c)) ∧
    (use_restore_code c (use_restore_code c tbl).2).1 =
      (use_restore_code c tbl).1 := by
  refine ⟨use_fst_eq_any c tbl, ?_⟩
  rw [use_fst_eq_any, use_fst_eq_any, use_preserves_match]

/-! ## Backup/restore orchestrator (`src/urban_mobility/backup.py`) -/

/-- The timestamp component of a backup filename (Python
`datetime.now().strftime` on creation time). -/
def fmtTimestamp (now : Int) : List Char := (toString now).data

/-- `create_backup` (backup.py lines 22-69): snapshots the live data files
into a fresh archive named from the timestamp and logs the creation. -/
def create_backup (now : Int) (username : List Char) (st : Sys) :
    List Char × Sys :=
  let backup_name := str "backup_" ++ fmtTimestamp now ++ str ".zip"
  let st1 : Sys := { st with backups := st.backups ++ [⟨backup_name, st.live⟩] }
  (backup_name,
    log_event now (str "Backup succesvol aangemaakt") username
      (str "Backup bestand: " ++ backup_name) false st1)

/-- Python truthiness of the `restore_code` argument: `None` and the empty
string both count as "no code supplied". -/
def hasCode : Option (List Char) → Bool
  | some (_ :: _) => true
  | _ => false

/-- The success tail of `restore_backup` (backup.py lines 165-197): take
an automatic safety backup of the current state, overwrite the live data
files from the archive, consume the restore code when one was used, log. -/
def restoreApply (now : Int) (backup_filename username : List Char)
    (consume : Option (List Char)) (archive : Archive) (st : Sys) :
    Bool × Sys :=
  let cb := create_backup now (str "auto_voor_restore_" ++ username) st
  let st1 : Sys := { cb.2 with live := archive.content }
  let st2 : Sys :=
    match consume with
    | some c => { st1 with codes := (use_restore_code c st1.codes).2 }
    | none => st1
  (true,
    log_event now (str "Backup succesvol hersteld") username
      (str "Backup: " ++ backup_filename ++ str ", Auto-backup: " ++ cb.1)
      false st2)

/-- `restore_backup` (backup.py lines 125-201): existence of the backup
file, then — for non-super-admins — the four-step restore-code gate in
source order: code supplied, code resolves via lookup, code bound to this
admin (denial logged suspicious), code bound to this backup. Only when
every gate passes is any stored state touched. -/
def restore_backup (now : Int) (backup_filename username : List Char)
    (restore_code : Option (List Char)) (is_super_admin : Bool) (st : Sys) :
    Bool × Sys :=
  match st.backups.find? (fun a => decide (a.name = backup_filename)) with
  | none =>
    (false,
      log_event now (str "Restore mislukt - backup niet gevonden") username
        (str "Backup: " ++ backup_filename) false st)
  | some archive =>
    if is_super_admin then
      restoreApply now backup_filename username none archive st
    else
      match restore_code with
      | none =>
        (false,
          log_event now (str "Restore geweigerd - geen restore code") username
            (str "Backup: " ++ backup_filename) false st)
      | some c =>
        if c = [] then
          (false,
            log_event now (str "Restore geweigerd - geen restore code") username
              (str "Backup: " ++ backup_filename) false st)
        else
          match get_restore_code c st.codes with
          | none =>
            (false,
              log_event now (str "Restore geweigerd - ongeldige restore code")
                username (str "Code: " ++ c) true st)
          | some code_info =>
            if ¬ code_info.system_admin_username = username then
              (false,
                log_event now
                  (str "Restore geweigerd - restore code niet voor deze gebruiker")
                  username (str "Code voor: " ++ code_info.system_admin_username)
                  true st)
            else if ¬ code_info.backup_name = backup_filename then
              (false,
                log_event now
                  (str "Restore geweigerd - restore code niet voor deze backup")
                  username (str "Code voor: " ++ code_info.backup_name) false st)
            else
              restoreApply now backup_filename username (some c) archive st

/-- A denied restore: reports failure and leaves the live data files, the
restore-code table and the backup directory untouched. -/
def restoreDenied (res : Bool × Sys) (st : Sys) : Prop :=
  res.1 = false ∧ res.2.live = st.live ∧ res.2.codes = st.codes ∧
    res.2.backups = st.backups

theorem restoreDenied_log (now : Int) (d u i : List Char) (s : Bool)
    (st : Sys) : restoreDenied (false, log_event now d u i s st) st :=
  ⟨rfl, log_event_live .., log_event_codes .., log_event_backups ..⟩

/-- C4: a non-super-admin restore fails — with no stored state overwritten
and no code consumed — whenever (a) no restore code is supplied (or the
empty string is), (b) the code does not resolve via lookup, (c) the code
is bound to a different admin, or (d) the code is bound to a different
backup; in case (c), when the backup file exists so the gate is actually
reached, the denial's log entry carries `suspicious = true`. -/
theorem C4_restore_gates (now : Int) (fname uname : List Char) (st : Sys) :
    (∀ rc, hasCode rc = false →
      restoreDenied (restore_backup now fname uname rc false st) st) ∧
    (∀ c, hasCode (some c) = true → get_restore_code c st.codes = none →
      restoreDenied (restore_backup now fname uname (some c) false st) st) ∧
    (∀ c info, hasCode (some c) = true →
      get_restore_code c st.codes = some info →
      ¬ info.system_admin_username = uname →
      restoreDenied (restore_backup now fname uname (some c) false st) st ∧
      (∀ archive,
        st.backups.find? (fun a => decide (a.name = fname)) = some archive →
        (restore_backup now fname uname (some c) false st).2.logs.getLast?.map
          LogEntry.suspicious = some true)) ∧
    (∀ c info, hasCode (some c) = true →
      get_restore_code c st.codes = some info →
      info.system_admin_username = uname → ¬ info.backup_name = fname →
      restoreDenied (restore_backup now fname uname (some c) false st) st) := by
  refine ⟨fun rc hrc => ?_, fun c h1 h2 => ?_, fun c info h1 h2 h3 => ?_,
    fun c info h1 h2 h3 h4 => ?_⟩
  · cases hfind : st.backups.find? (fun a => decide (a.name = fname)) with
    | none =>
      simp only [restore_backup, hfind]
      exact restoreDenied_log ..
    | some archive =>
      simp only [restore_backup, hfind, Bool.false_eq_true, if_false]
      cases rc with
      | none => exact restoreDenied_log ..
      | some c =>
        cases c with
        | nil =>
          simp only [↓reduceIte]
          exact restoreDenied_log ..
        | cons ch cs => simp [hasCode] at hrc
  · cases hfind : st.backups.find? (fun a => decide (a.name = fname)) with
    | none =>
      simp only [restore_backup, hfind]
      exact restoreDenied_log ..
    | some archive =>
      have hc : ¬ c = [] := by
        cases c with
        | nil => simp [hasCode] at h1
        | cons ch cs => simp
      simp only [restore_backup, hfind, Bool.false_eq_true, if_false,
        if_neg hc, h2]
      exact restoreDenied_log ..
  · have hc : ¬ c = [] := by
      cases c with
      | nil => simp [hasCode] at h1
      | cons ch cs => simp
    constructor
    · cases hfind : st.backups.find? (fun a => decide (a.name = fname)) with
      | none =>
        simp only [restore_backup, hfind]
        exact restoreDenied_log ..
      | some archive =>
        simp only [restore_backup, hfind, Bool.false_eq_true, if_false,
          if_neg hc, h2, if_pos h3]
        exact restoreDenied_log ..
    · intro archive hfind
      simp only [restore_backup, hfind, Bool.false_eq_true, if_false,
        if_neg hc, h2, if_pos h3]
      exact log_event_last_suspicious ..
  · have hc : ¬ c = [] := by
      cases c with
      | nil => simp [hasCode] at h1
      | cons ch cs => simp
    cases hfind : st.backups.find? (fun a => decide (a.name = fname)) with
    | none =>
      simp only [restore_backup, hfind]
      exact restoreDenied_log ..
    | some archive =>
      simp only [restore_backup, hfind, Bool.false_eq_true, if_false,
        if_neg hc, h2, if_neg (not_not_intro h3), if_pos h4]
      exact restoreDenied_log ..

/-- Witness for C4: a restore attempted by `sysadmin02` with a code bound
to `sysadmin01` is denied with no state change and a suspicious log
entry. -/
theorem C4_restore_gates_witness :
    restoreDenied
      (restore_backup 0 (str "backup_1.zip") (str "sysadmin02")
        (some (str "CODE1")) false
        (Sys.mk [] [] [CodeRow.mk (str "CODE1") (str "sysadmin01")
          (str "backup_1.zip") 0 false] [Archive.mk (str "backup_1.zip") 7] 7 [] 0))
      (Sys.mk [] [] [CodeRow.mk (str "CODE1") (str "sysadmin01")
        (str "backup_1.zip") 0 false] [Archive.mk (str "backup_1.zip") 7] 7 [] 0) ∧
    (restore_backup 0 (str "backup_1.zip") (str "sysadmin02")
        (some (str "CODE1")) false
        (Sys.mk [] [] [CodeRow.mk (str "CODE1") (str "sysadmin01")
          (str "backup_1.zip") 0 false] [Archive.mk (str "backup_1.zip") 7] 7 [] 0)).2.logs.getLast?.map
      LogEntry.suspicious = some true :=
  ⟨((C4_restore_gates 0 (str "backup_1.zip") (str "sysadmin02")
      (Sys.mk [] [] [CodeRow.mk (str "CODE1") (str "sysadmin01")
        (str "backup_1.zip") 0 false]
        [Archive.mk (str "backup_1.zip") 7] 7 [] 0)).2.2.1
      (str "CODE1")
      (CodeRow.mk (str "CODE1") (str "sysadmin01") (str "backup_1.zip") 0 false)
      (by decide) (by decide) (by decide)).1,
    ((C4_restore_gates 0 (str "backup_1.zip") (str "sysadmin02")
      (Sys.mk [] [] [CodeRow.mk (str "CODE1") (str "sysadmin01")
        (str "backup_1.zip") 0 false]
        [Archive.mk (str "backup_1.zip") 7] 7 [] 0)).2.2.1
      (str "CODE1")
      (CodeRow.mk (str "CODE1") (str "sysadmin01") (str "backup_1.zip") 0 false)
      (by decide) (by decide) (by decide)).2
      (Archive.mk (str "backup_1.zip") 7) (by decide)⟩

end UrbanMobility
